import Mathlib

/-!
Verification development for the lacey-music-program repository.

The repository classifies files as cloud-backed or local from extended
attributes, path location and a content probe, evicts the local copies of
cloud files through a fixed list of strategies, and verifies eviction with
a tolerant multi-signal test.

The embedding below translates, from the source:
  - src/archive/program.py: get_icloud_file_status (classifier),
    verify_eviction (verifier), remove_download_smart (orchestrator);
  - src/main.py: is_icloud_file_evicted.

Filesystem effects (listing and reading extended attributes, file size,
reading file content) are modelled as oracles carried by an FS record.
Python exceptions raised by those calls are modelled with Except PyErr;
a call site that catches an exception in the source inspects the error
case of the oracle at the same point. Machine sizes are Nat (Python ints
are unbounded; file sizes are nonnegative). The one numeric abstraction:
the float comparison current_size < original_size * 0.1 in verify_eviction
is modelled as the exact comparison 10 * current_size < original_size.
-/

/-- Errors that the modelled filesystem calls can raise. All constructors
model OSError subclasses (FileNotFoundError, PermissionError, IOError and
other OSError), which is what the source catches at its inner handlers. -/
inductive PyErr where
  | notFound
  | permission
  | ioErr
  | otherOS
deriving DecidableEq, Repr

/-- Substring test on character lists: does the needle occur inside the
haystack. Mirrors the Python operator `needle in haystack` on str. -/
def listInfix (needle : List Char) : List Char → Bool
  | [] => needle.isEmpty
  | c :: rest => needle.isPrefixOf (c :: rest) || listInfix needle rest

/-- Python str containment: containsStr big small is true when small occurs
as a contiguous substring of big. -/
def containsStr (big small : String) : Bool :=
  listInfix small.toList big.toList

/-- Python str.startswith on whole strings. -/
def strStarts (s p : String) : Bool :=
  p.toList.isPrefixOf s.toList

/-- The status record built by get_icloud_file_status
(src/archive/program.py lines 272 to 279). -/
structure FileStatus where
  is_icloud_file : Bool
  is_downloaded : Bool
  is_downloading : Bool
  is_placeholder : Bool
  file_size : Nat
  attributes : List String
deriving DecidableEq, Repr

/-- Filesystem oracles for one path, as consulted by the classifier:
listxattr, getsize, per-attribute getxattr, and the content probe read
(readProbe n = number of bytes obtained when n bytes are requested from
the start of the file). home is the expansion of the tilde in
os.path.expanduser, assumed without a trailing slash. -/
structure FS where
  home : String
  listxattr : Except PyErr (List String)
  getsize : Except PyErr Nat
  getxattr : String → Except PyErr String
  readProbe : Nat → Except PyErr Nat

/-- Result of os.path.getsize under the bare try in the source
(lines 282 to 285): a raised error leaves the size at 0. -/
def pySize : Except PyErr Nat → Nat
  | Except.ok n => n
  | Except.error _ => 0

/-- iCloud indicator substrings (source lines 288 to 293). -/
def icloud_indicators : List String :=
  ["com.apple.file-provider", "com.apple.icloud", "com.apple.CloudDocs",
   "com.apple.clouddocs"]

/-- Ordered list of materialized attribute names (source lines 326 to 329). -/
def materialized_attrs : List String :=
  ["com.apple.file-provider.materialized", "com.apple.icloud.materialized"]

/-- In-transfer attribute names (source lines 363 to 366). -/
def downloading_attrs : List String :=
  ["com.apple.file-provider.downloading", "com.apple.icloud.downloading"]

/-- Explicit placeholder attribute names (source lines 377 to 380). -/
def placeholder_indicators : List String :=
  ["com.apple.icloud.placeholder", "com.apple.file-provider.placeholder"]

/-- Policy and eviction attribute names checked by verify_eviction
(source lines 551 to 557). -/
def policy_attrs : List String :=
  ["com.apple.file-provider.download-policy", "com.apple.clouddocs.download-policy",
   "com.apple.file-provider.auto-download", "com.apple.clouddocs.auto-download",
   "com.apple.file-provider.evicted"]

/-- The canonical iCloud Drive root,
os.path.expanduser of the tilde path (source line 303). -/
def icloud_drive_path (home : String) : String :=
  home ++ "/Library/Mobile Documents/com~apple~CloudDocs"

/-- Interpretation of the raw value of a materialized attribute
(source lines 333 to 360): canonical truthy tokens mean downloaded,
canonical falsy tokens mean not downloaded, any other nonempty value means
downloaded, the empty value means not downloaded, and a failure to read the
value means not downloaded. -/
def interpretMaterializedValue : Except PyErr String → Bool
  | Except.ok v =>
    if v == "1" || v == "true" || v == "True" then true
    else if v == "0" || v == "false" || v == "False" then false
    else !(v == "")
  | Except.error _ => false

/-- Scan of the ordered materialized attribute list (source lines 331 to
360): the first name present in the attribute set decides is_downloaded via
its value; every branch of the loop body ends in break. With none present
the flag keeps its initial False. -/
def computeDownloaded (attrs : List String) (gx : String → Except PyErr String) : Bool :=
  match materialized_attrs.find? (fun m => attrs.contains m) with
  | some a => interpretMaterializedValue (gx a)
  | none => false

/-- Placeholder inference for a cloud file (source lines 375 to 389): an
explicit placeholder attribute forces is_placeholder true and overrides
is_downloaded to false; otherwise a not-downloaded cloud file defaults to
placeholder. Returns (is_downloaded, is_placeholder). -/
def applyPlaceholderRules (attrs : List String) (dl : Bool) : Bool × Bool :=
  if placeholder_indicators.any (fun i => attrs.contains i) then (false, true)
  else (dl, !dl)

/-- Flags after the attribute-based steps, before the content probe. -/
def preProbeFlags (attrs : List String) (gx : String → Except PyErr String) : Bool × Bool :=
  applyPlaceholderRules attrs (computeDownloaded attrs gx)

/-- Content-probe override (source lines 393 to 423), given the current
flags (dl, ph), the reported size and the outcome of reading
min 2048 size bytes. Zero bytes read with nonzero claimed size forces
placeholder; at least min 1024 size bytes read forces downloaded; a short
read below 1000 bytes on a file above 10000 bytes forces placeholder; a
read error on a file above 10000 bytes forces placeholder; anything else
leaves the flags unchanged. Returns (is_downloaded, is_placeholder). -/
def contentProbe (size : Nat) (dl ph : Bool) (r : Except PyErr Nat) : Bool × Bool :=
  match r with
  | Except.ok n =>
    if n = 0 && decide (0 < size) then (false, true)
    else if decide (min 1024 size ≤ n) then
      if !dl then (true, false) else (dl, ph)
    else if decide (10000 < size) && decide (n < 1000) then (false, true)
    else (dl, ph)
  | Except.error _ =>
    if decide (10000 < size) then (false, true) else (dl, ph)

/-- Final (is_downloaded, is_placeholder) of a cloud file: the probe
override applies only when the reported size exceeds 1024 bytes
(source line 393), requesting min 2048 size bytes (source line 397). -/
def finalFlags (attrs : List String) (fs : FS) : Bool × Bool :=
  if 1024 < pySize fs.getsize then
    contentProbe (pySize fs.getsize) (preProbeFlags attrs fs.getxattr).1
      (preProbeFlags attrs fs.getxattr).2 (fs.readProbe (min 2048 (pySize fs.getsize)))
  else preProbeFlags attrs fs.getxattr

/-- The cloud-file test (source lines 295 to 318): at least one attribute
name containing an iCloud indicator substring, or the path starting with
the canonical iCloud Drive root. -/
def cloudCheck (path : String) (home : String) (attrs : List String) : Bool :=
  !((attrs.filter (fun a => icloud_indicators.any (fun ind => containsStr a ind))).isEmpty)
    || strStarts path (icloud_drive_path home)

/-- Body of the try block of get_icloud_file_status once listxattr has
returned a name list: non-cloud files return with every flag at its initial
False (early return, source lines 320 to 322); cloud files go through the
downloaded scan, the downloading presence test, the placeholder rules and
the content probe. -/
def classifyCore (path : String) (attrs : List String) (fs : FS) : FileStatus :=
  if cloudCheck path fs.home attrs then
    { is_icloud_file := true
      is_downloaded := (finalFlags attrs fs).1
      is_downloading := downloading_attrs.any (fun a => attrs.contains a)
      is_placeholder := (finalFlags attrs fs).2
      file_size := pySize fs.getsize
      attributes := attrs }
  else
    { is_icloud_file := false
      is_downloaded := false
      is_downloading := false
      is_placeholder := false
      file_size := pySize fs.getsize
      attributes := attrs }

/-- The try block of get_icloud_file_status (source lines 270 to 425): a
raised error from listxattr aborts the body and propagates to the handler
at line 427 with nothing of the status built. -/
def classifyE (path : String) (fs : FS) : Except PyErr FileStatus :=
  match fs.listxattr with
  | Except.error e => Except.error e
  | Except.ok attrs => Except.ok (classifyCore path attrs fs)

/-- Public result of get_icloud_file_status: the except handler at source
lines 427 to 429 turns any raised error into a None return. -/
def get_icloud_file_status (path : String) (fs : FS) : Option FileStatus :=
  match classifyE path fs with
  | Except.ok st => some st
  | Except.error _ => none

/-- Python truthiness of the optional original_size argument. -/
def pyTruthy : Option Nat → Bool
  | none => false
  | some n => n != 0

/-- Decision core of verify_eviction (source lines 509 to 574), given the
re-classification outcome and the original size. The ordered early returns
of the source: placeholder, not downloaded, size below a tenth of the
original, no materialized attribute left, and same size with a policy or
evicted attribute present. The float product original_size * 0.1 is
modelled as the exact comparison 10 * current < original. -/
def verify_confirmed (st? : Option FileStatus) (orig : Option Nat) : Bool :=
  match st? with
  | none => false
  | some st =>
    if st.is_placeholder then true
    else if !st.is_downloaded then true
    else if pyTruthy orig && decide (10 * st.file_size < orig.getD 0) then true
    else if !(materialized_attrs.any (fun a => st.attributes.contains a)) then true
    else if pyTruthy orig && (st.file_size == orig.getD 0)
            && policy_attrs.any (fun a => st.attributes.contains a) then true
    else false

/-- verify_eviction on a filesystem state: it re-classifies the path (after
a settle sleep, which carries no information here) and applies the
confirmation test; a None classification is unconfirmed. -/
def verify_eviction (path : String) (fs : FS) (orig : Option Nat) : Bool :=
  verify_confirmed (get_icloud_file_status path fs) orig

/-- Observable events of one remove_download_smart run: a classification
(one call of get_icloud_file_status), a strategy invocation with its
reported success flag, one application of the anti-redownload policy writes
(prevent_auto_redownload), and a blocking sleep of the given seconds. -/
inductive Event where
  | classify : Event
  | strategy : String → Bool → Event
  | prevent : Event
  | sleep : Nat → Event
deriving DecidableEq, Repr

/-- Terminal outcome of one remove_download_smart run. -/
inductive Outcome where
  | notFound : Outcome
  | notCloud : Outcome
  | alreadyEvicted : Outcome
  | evictedVia : Nat → Outcome
  | delayedConfirm : Outcome
  | finalHeuristic : Outcome
  | failed : Outcome
deriving DecidableEq, Repr

/-- Environment of one remove_download_smart run. Strategies and the
provider daemon mutate the world between classifications, so the result of
the k-th get_icloud_file_status call of the run is an oracle classifySeq k
(call 0 is the initial classification); stratSuccess i is the success flag
reported by the i-th strategy in the fixed method order. -/
structure RunEnv where
  pathExists : Bool
  classifySeq : Nat → Option FileStatus
  stratSuccess : Nat → Bool

/-- The fixed strategy order of remove_download_smart
(source lines 600 to 605). -/
def methodNames : List String :=
  ["brctl", "AppleScript", "xattr", "evict"]

/-- Strategy loop of remove_download_smart (source lines 607 to 634): each
method is invoked in order; only when its own success flag is true does the
orchestrator apply the policy writes and verify (sleep 2 then re-classify),
returning on confirmation after one reinforcing policy write; a false flag
or an unconfirmed verification moves to the next method. Returns (index of
the confirming method if any, next classification counter, events). -/
def stratLoop (env : RunEnv) (initSize : Nat) : Nat → Nat → List String → Option Nat × Nat × List Event
  | k, _, [] => (none, k, [])
  | k, i, name :: rest =>
    if env.stratSuccess i then
      if verify_confirmed (env.classifySeq k) (some initSize) then
        (some i, k + 1,
          [Event.strategy name true, Event.prevent, Event.sleep 2, Event.classify, Event.prevent])
      else
        let r := stratLoop env initSize (k + 1) (i + 1) rest
        (r.1, r.2.1,
          Event.strategy name true :: Event.prevent :: Event.sleep 2 :: Event.classify :: r.2.2)
    else
      let r := stratLoop env initSize k (i + 1) rest
      (r.1, r.2.1, Event.strategy name false :: r.2.2)

/-- Post-loop tail of remove_download_smart once every strategy has been
tried without confirmation (source lines 636 to 667): one delayed
re-verification (sleep 5, then the verification sleep 2 and re-classify),
then a final heuristic re-classification accepting not-downloaded or
placeholder with a policy write, and at last a safety policy write with
failure reported. k is the classification counter on entry. -/
def rdsPost (env : RunEnv) (initSize : Nat) (k : Nat) : Bool × Outcome × List Event :=
  if verify_confirmed (env.classifySeq k) (some initSize) then
    (true, Outcome.delayedConfirm, [Event.sleep 5, Event.sleep 2, Event.classify])
  else
    match env.classifySeq (k + 1) with
    | some stf =>
      if !stf.is_downloaded || stf.is_placeholder then
        (true, Outcome.finalHeuristic,
          [Event.sleep 5, Event.sleep 2, Event.classify, Event.classify, Event.prevent])
      else
        (false, Outcome.failed,
          [Event.sleep 5, Event.sleep 2, Event.classify, Event.classify, Event.prevent])
    | none =>
      (false, Outcome.failed,
        [Event.sleep 5, Event.sleep 2, Event.classify, Event.classify, Event.prevent])

/-- Eviction phase of remove_download_smart for a downloaded cloud file of
initial status st: the strategy loop, followed on non-confirmation by the
post-loop tail. -/
def rdsMain (env : RunEnv) (st : FileStatus) : Bool × Outcome × List Event :=
  match (stratLoop env st.file_size 1 0 methodNames).1 with
  | some i =>
    (true, Outcome.evictedVia i,
      Event.classify :: (stratLoop env st.file_size 1 0 methodNames).2.2)
  | none =>
    ((rdsPost env st.file_size (stratLoop env st.file_size 1 0 methodNames).2.1).1,
     (rdsPost env st.file_size (stratLoop env st.file_size 1 0 methodNames).2.1).2.1,
     Event.classify :: (stratLoop env st.file_size 1 0 methodNames).2.2
       ++ (rdsPost env st.file_size (stratLoop env st.file_size 1 0 methodNames).2.1).2.2)

/-- The single-file orchestrator remove_download_smart (source lines 576 to
667): missing path fails; a None or non-cloud classification fails; an
already-not-downloaded cloud file succeeds at once; otherwise the eviction
phase runs. Returns (success, outcome, events). -/
def remove_download_smart (env : RunEnv) : Bool × Outcome × List Event :=
  if !env.pathExists then (false, Outcome.notFound, [])
  else
    match env.classifySeq 0 with
    | none => (false, Outcome.notCloud, [Event.classify])
    | some st =>
      if !st.is_icloud_file then (false, Outcome.notCloud, [Event.classify])
      else if !st.is_downloaded then (true, Outcome.alreadyEvicted, [Event.classify])
      else rdsMain env st

/-- Recognizer of strategy invocation events. -/
def isStrategyEvent : Event → Bool
  | Event.strategy _ _ => true
  | _ => false

/-- Claim C8 as stated, over an event trace: every strategy invocation,
regardless of its success flag, is immediately followed by the policy
writes and then a verification (sleep 2 and re-classification) before
anything else happens. -/
def c8AsStatedCheck : List Event → Bool
  | [] => true
  | e :: rest =>
    match e with
    | Event.strategy _ _ =>
      match rest with
      | Event.prevent :: Event.sleep s :: Event.classify :: rest2 =>
        (s == 2) && c8AsStatedCheck rest2
      | _ => false
    | _ => c8AsStatedCheck rest

/-- Claim C8 amended, over an event trace: every strategy invocation whose
own success flag is true is immediately followed by the policy writes and
then a verification before anything else; a failed invocation is not. -/
def c8AmendedCheck : List Event → Bool
  | [] => true
  | e :: rest =>
    match e with
    | Event.strategy _ true =>
      match rest with
      | Event.prevent :: Event.sleep s :: Event.classify :: rest2 =>
        (s == 2) && c8AmendedCheck rest2
      | _ => false
    | _ => c8AmendedCheck rest

/-- Confirmation condition of claim C6, written from the words of the
claim: placeholder, or not downloaded, or new size below ten percent of
the original, or no materialized attribute present, or new size equal to
the original with a policy or evicted attribute present. -/
def c6ClaimCondition (st : FileStatus) (orig : Nat) : Bool :=
  st.is_placeholder || !st.is_downloaded
    || decide (10 * st.file_size < orig)
    || !(materialized_attrs.any (fun a => st.attributes.contains a))
    || ((st.file_size == orig) && policy_attrs.any (fun a => st.attributes.contains a))

/-- Drop trailing slash characters (posixpath.split head normalization). -/
def dropTrailingSlashes (cs : List Char) : List Char :=
  (cs.reverse.dropWhile (fun c => c = '/')).reverse

/-- Index of the last slash of a character list, if any. -/
def lastSlashPosAux : List Char → Nat → Option Nat
  | [], _ => none
  | c :: rest, i =>
    match lastSlashPosAux rest (i + 1) with
    | some j => some j
    | none => if c = '/' then some i else none

/-- posixpath.split: divide a path at its final slash; the head keeps no
trailing slash unless it is entirely slashes. -/
def posixSplit (p : String) : String × String :=
  let cs := p.toList
  match lastSlashPosAux cs 0 with
  | none => ("", p)
  | some i =>
    let head := cs.take (i + 1)
    let tail := cs.drop (i + 1)
    if head.all (fun c => c = '/') then (String.mk head, String.mk tail)
    else (String.mk (dropTrailingSlashes head), String.mk tail)

/-- os.path.dirname. -/
def dirname (p : String) : String := (posixSplit p).1

/-- os.path.basename. -/
def basename (p : String) : String := (posixSplit p).2

/-- Whether a string ends with a slash. -/
def endsWithSlash (a : String) : Bool :=
  match a.toList.reverse with
  | [] => false
  | c :: _ => c = '/'

/-- posixpath.join of two components. -/
def joinPath (a b : String) : String :=
  if strStarts b ("/") then b
  else if a == "" || endsWithSlash a then a ++ b
  else a ++ "/" ++ b

/-- Filesystem oracles used by src/main.py: existence and stat size. -/
structure MainFS where
  pathExists : String → Bool
  st_size : String → Nat

/-- is_icloud_file_evicted (src/main.py lines 6 to 14): a missing path is
evicted exactly when the sidecar dot-name icloud file exists next to it; an
existing path is evicted exactly when its size is zero. -/
def is_icloud_file_evicted (fs : MainFS) (filepath : String) : Bool :=
  if !(fs.pathExists filepath) then
    fs.pathExists (joinPath (dirname filepath) ("." ++ basename filepath ++ ".icloud"))
  else
    fs.st_size filepath == 0

/-! Helper lemmas about the classifier. -/

lemma applyPlaceholderRules_snd (attrs : List String) (dl : Bool) :
    (applyPlaceholderRules attrs dl).2 = !(applyPlaceholderRules attrs dl).1 := by
  unfold applyPlaceholderRules
  split <;> simp

lemma preProbeFlags_snd (attrs : List String) (gx : String → Except PyErr String) :
    (preProbeFlags attrs gx).2 = !(preProbeFlags attrs gx).1 := by
  unfold preProbeFlags
  exact applyPlaceholderRules_snd attrs (computeDownloaded attrs gx)

lemma contentProbe_snd (size : Nat) (dl ph : Bool) (r : Except PyErr Nat)
    (h : ph = !dl) : (contentProbe size dl ph r).2 = !(contentProbe size dl ph r).1 := by
  subst h
  cases r <;> unfold contentProbe <;> (repeat' split) <;> simp

lemma finalFlags_snd (attrs : List String) (fs : FS) :
    (finalFlags attrs fs).2 = !(finalFlags attrs fs).1 := by
  unfold finalFlags
  split
  · exact contentProbe_snd _ _ _ _ (preProbeFlags_snd attrs fs.getxattr)
  · exact preProbeFlags_snd attrs fs.getxattr

lemma classifyE_ok (path : String) (fs : FS) (attrs : List String)
    (hl : fs.listxattr = Except.ok attrs) :
    classifyE path fs = Except.ok (classifyCore path attrs fs) := by
  unfold classifyE
  rw [hl]

lemma get_icloud_file_status_ok (path : String) (fs : FS) (attrs : List String)
    (hl : fs.listxattr = Except.ok attrs) :
    get_icloud_file_status path fs = some (classifyCore path attrs fs) := by
  unfold get_icloud_file_status
  rw [classifyE_ok path fs attrs hl]

lemma filter_not_empty_iff {α : Type} (p : α → Bool) (l : List α) :
    (l.filter p).isEmpty = false ↔ ∃ a ∈ l, p a = true := by
  constructor
  · intro h
    have hne : l.filter p ≠ [] := by
      intro hnil
      rw [hnil] at h
      simp at h
    obtain ⟨a, ha⟩ := List.exists_mem_of_ne_nil _ hne
    have h2 := List.mem_filter.mp ha
    exact ⟨a, h2.1, h2.2⟩
  · rintro ⟨a, ha, hp⟩
    have hmem : a ∈ l.filter p := List.mem_filter.mpr ⟨ha, hp⟩
    cases hfe : l.filter p with
    | nil =>
      rw [hfe] at hmem
      exact absurd hmem (List.not_mem_nil a)
    | cons b t => rfl

lemma cloudCheck_iff (path : String) (home : String) (attrs : List String) :
    cloudCheck path home attrs = true ↔
      (∃ a ∈ attrs, ∃ ind ∈ icloud_indicators, containsStr a ind = true)
      ∨ strStarts path (icloud_drive_path home) = true := by
  unfold cloudCheck
  rw [Bool.or_eq_true, Bool.not_eq_true', filter_not_empty_iff]
  simp only [List.any_eq_true]

lemma cloudCheck_false (path : String) (home : String) (attrs : List String)
    (hno : ∀ a ∈ attrs, ∀ ind ∈ icloud_indicators, containsStr a ind = false)
    (hroot : strStarts path (icloud_drive_path home) = false) :
    cloudCheck path home attrs = false := by
  rw [Bool.eq_false_iff]
  intro h
  rcases (cloudCheck_iff path home attrs).mp h with ⟨a, ha, ind, hind, hc⟩ | h2
  · rw [hno a ha ind hind] at hc
    exact absurd hc (by simp)
  · rw [hroot] at h2
    exact absurd h2 (by simp)

lemma classifyCore_not_cloud (path : String) (attrs : List String) (fs : FS)
    (h : cloudCheck path fs.home attrs = false) :
    classifyCore path attrs fs =
      { is_icloud_file := false, is_downloaded := false, is_downloading := false,
        is_placeholder := false, file_size := pySize fs.getsize, attributes := attrs } := by
  unfold classifyCore
  rw [h]
  simp

lemma classifyCore_cloud (path : String) (attrs : List String) (fs : FS)
    (h : cloudCheck path fs.home attrs = true) :
    classifyCore path attrs fs =
      { is_icloud_file := true
        is_downloaded := (finalFlags attrs fs).1
        is_downloading := downloading_attrs.any (fun a => attrs.contains a)
        is_placeholder := (finalFlags attrs fs).2
        file_size := pySize fs.getsize
        attributes := attrs } := by
  unfold classifyCore
  rw [h]
  simp

/-! Concrete instances used by witnesses. -/

def c1path : String := "/Users/u/Documents/song.mp3"

def c1fs : FS :=
  { home := "/Users/u"
    listxattr := Except.ok ["com.apple.quarantine"]
    getsize := Except.ok 50000
    getxattr := fun _ => Except.error PyErr.otherOS
    readProbe := fun _ => Except.ok 2048 }

def c1env : RunEnv :=
  { pathExists := true
    classifySeq := fun k => if k = 0 then get_icloud_file_status c1path c1fs else none
    stratSuccess := fun _ => true }

def c2fs : FS :=
  { home := "/Users/u"
    listxattr := Except.ok ["com.apple.file-provider.materialized"]
    getsize := Except.ok 0
    getxattr := fun _ => Except.ok "1"
    readProbe := fun _ => Except.error PyErr.otherOS }

def c2st : FileStatus :=
  { is_icloud_file := true, is_downloaded := true, is_downloading := false,
    is_placeholder := false, file_size := 0,
    attributes := ["com.apple.file-provider.materialized"] }

def c3path : String := "/Users/u/Library/Mobile Documents/com~apple~CloudDocs/a.mp3"

def c3fs : FS :=
  { home := "/Users/u"
    listxattr := Except.ok []
    getsize := Except.ok 10
    getxattr := fun _ => Except.error PyErr.otherOS
    readProbe := fun _ => Except.ok 10 }

def c3st : FileStatus :=
  { is_icloud_file := true, is_downloaded := false, is_downloading := false,
    is_placeholder := true, file_size := 10, attributes := [] }

/-! Claim theorems. -/

/-- Claim C1: a path with no cloud-provider-namespaced extended attribute
that does not reside under the canonical cloud-drive root is classified
with is_icloud_file, is_downloaded and is_placeholder all false, and
remove_download_smart on a run whose initial classification is that result
invokes no eviction strategy. -/
theorem c1_non_cloud_safety (path : String) (fs : FS) (attrs : List String)
    (hl : fs.listxattr = Except.ok attrs)
    (hno : ∀ a ∈ attrs, ∀ ind ∈ icloud_indicators, containsStr a ind = false)
    (hroot : strStarts path (icloud_drive_path fs.home) = false) :
    (∀ st, get_icloud_file_status path fs = some st →
        st.is_icloud_file = false ∧ st.is_downloaded = false ∧ st.is_placeholder = false)
    ∧ (get_icloud_file_status path fs).isSome = true
    ∧ ∀ env : RunEnv, env.classifySeq 0 = get_icloud_file_status path fs →
        (remove_download_smart env).2.2.filter isStrategyEvent = [] := by
  have hcc := cloudCheck_false path fs.home attrs hno hroot
  have hget := get_icloud_file_status_ok path fs attrs hl
  have hcore := classifyCore_not_cloud path attrs fs hcc
  refine ⟨?_, ?_, ?_⟩
  · intro st hst
    rw [hget] at hst
    injection hst with h1
    rw [← h1, hcore]
    exact ⟨rfl, rfl, rfl⟩
  · rw [hget]
    rfl
  · intro env henv
    rw [hget, hcore] at henv
    cases hpe : env.pathExists
    · simp [remove_download_smart, hpe]
    · simp [remove_download_smart, hpe, henv, isStrategyEvent]

/-- Claim C1 witness at a concrete local file and run. -/
theorem c1_witness :
    (get_icloud_file_status c1path c1fs).isSome = true
    ∧ (remove_download_smart c1env).2.2.filter isStrategyEvent = [] := by
  have h := c1_non_cloud_safety c1path c1fs ["com.apple.quarantine"] rfl (by decide) (by decide)
  exact ⟨h.2.1, h.2.2 c1env rfl⟩

/-- Claim C2: a status returned for a cloud file has exactly one of
is_downloaded and is_placeholder set: every branch of the placeholder
inference and of the content-probe override preserves the exclusion. -/
theorem c2_cloud_flags_exclusive (path : String) (fs : FS) (st : FileStatus)
    (h : classifyE path fs = Except.ok st) (hc : st.is_icloud_file = true) :
    (st.is_downloaded = true ∧ st.is_placeholder = false)
    ∨ (st.is_downloaded = false ∧ st.is_placeholder = true) := by
  cases hl : fs.listxattr with
  | error e =>
    unfold classifyE at h
    rw [hl] at h
    simp at h
  | ok attrs =>
    unfold classifyE at h
    rw [hl] at h
    injection h with h1
    cases hcc : cloudCheck path fs.home attrs with
    | false =>
      rw [← h1, classifyCore_not_cloud path attrs fs hcc] at hc
      simp at hc
    | true =>
      have hdl : st.is_downloaded = (finalFlags attrs fs).1 := by
        rw [← h1, classifyCore_cloud path attrs fs hcc]
      have hph : st.is_placeholder = (finalFlags attrs fs).2 := by
        rw [← h1, classifyCore_cloud path attrs fs hcc]
      rw [hdl, hph, finalFlags_snd]
      cases (finalFlags attrs fs).1 <;> simp

/-- Claim C2 witness at a concrete cloud file. -/
theorem c2_witness :
    (c2st.is_downloaded = true ∧ c2st.is_placeholder = false)
    ∨ (c2st.is_downloaded = false ∧ c2st.is_placeholder = true) :=
  c2_cloud_flags_exclusive ("/d/a.mp3") c2fs c2st rfl rfl

/-- Claim C3: a status returned by classification marks the path as a cloud
file exactly when some extended attribute name contains one of the fixed
cloud-provider indicator substrings or the path starts with the canonical
cloud-drive root. -/
theorem c3_cloud_classification_iff (path : String) (fs : FS) (attrs : List String)
    (st : FileStatus)
    (hl : fs.listxattr = Except.ok attrs)
    (h : classifyE path fs = Except.ok st) :
    st.is_icloud_file = true ↔
      (∃ a ∈ attrs, ∃ ind ∈ icloud_indicators, containsStr a ind = true)
      ∨ strStarts path (icloud_drive_path fs.home) = true := by
  rw [classifyE_ok path fs attrs hl] at h
  injection h with h1
  have hic : st.is_icloud_file = cloudCheck path fs.home attrs := by
    rw [← h1]
    cases hcc : cloudCheck path fs.home attrs
    · rw [classifyCore_not_cloud path attrs fs hcc]
    · rw [classifyCore_cloud path attrs fs hcc]
  rw [hic, cloudCheck_iff]

/-- Claim C3 witness: a file under the canonical cloud-drive root with an
empty attribute set is classified as a cloud file. -/
theorem c3_witness : c3st.is_icloud_file = true :=
  (c3_cloud_classification_iff c3path c3fs [] c3st rfl rfl).mpr (Or.inr (by decide))

lemma contentProbe_ok_zero (size : Nat) (dl ph : Bool) (h : 0 < size) :
    contentProbe size dl ph (Except.ok 0) = (false, true) := by
  unfold contentProbe
  simp [h]

lemma contentProbe_ok_big (size n : Nat) (dl ph : Bool)
    (hsz : 1024 < size) (hn : min 1024 size ≤ n) (hxor : ph = !dl) :
    contentProbe size dl ph (Except.ok n) = (true, false) := by
  subst hxor
  have hmin : min 1024 size = 1024 := Nat.min_eq_left (by omega)
  rw [hmin] at hn
  unfold contentProbe
  rw [hmin]
  have hn0 : ¬(n = 0) := by omega
  simp [hn0, hn]

lemma contentProbe_ok_short (size n : Nat) (dl ph : Bool)
    (hsz : 10000 < size) (hn : n < 1000) :
    contentProbe size dl ph (Except.ok n) = (false, true) := by
  have hmin : min 1024 size = 1024 := Nat.min_eq_left (by omega)
  unfold contentProbe
  rw [hmin]
  by_cases hn0 : n = 0
  · simp [hn0, Nat.lt_of_lt_of_le (by omega : (0:Nat) < 10000) (le_of_lt hsz)]
  · have hlt : ¬(1024 ≤ n) := by omega
    simp [hn0, hlt, hsz, hn]

lemma contentProbe_err_big (size : Nat) (dl ph : Bool) (e : PyErr)
    (hsz : 10000 < size) :
    contentProbe size dl ph (Except.error e) = (false, true) := by
  unfold contentProbe
  simp [hsz]

lemma contentProbe_ok_mid (size n : Nat) (dl ph : Bool)
    (hpos : 0 < n) (hlt : n < min 1024 size) (hnf : ¬(10000 < size ∧ n < 1000)) :
    contentProbe size dl ph (Except.ok n) = (dl, ph) := by
  unfold contentProbe
  have hn0 : ¬(n = 0) := by omega
  have hge : ¬(min 1024 size ≤ n) := by omega
  have hcond : ¬((decide (10000 < size) && decide (n < 1000)) = true) := by
    simp only [Bool.and_eq_true, decide_eq_true_eq]
    exact hnf
  simp [hn0, hge, hcond]

lemma contentProbe_err_small (size : Nat) (dl ph : Bool) (e : PyErr)
    (hsz : size ≤ 10000) :
    contentProbe size dl ph (Except.error e) = (dl, ph) := by
  unfold contentProbe
  have h : ¬(10000 < size) := by omega
  simp [h]

lemma classify_cloud_eqs (path : String) (fs : FS) (attrs : List String) (st : FileStatus)
    (hl : fs.listxattr = Except.ok attrs)
    (h : classifyE path fs = Except.ok st)
    (hcloud : st.is_icloud_file = true) :
    st.is_downloaded = (finalFlags attrs fs).1
    ∧ st.is_placeholder = (finalFlags attrs fs).2
    ∧ st.file_size = pySize fs.getsize
    ∧ st.attributes = attrs := by
  rw [classifyE_ok path fs attrs hl] at h
  injection h with h1
  cases hcc : cloudCheck path fs.home attrs with
  | false =>
    rw [← h1, classifyCore_not_cloud path attrs fs hcc] at hcloud
    simp at hcloud
  | true =>
    have hco := classifyCore_cloud path attrs fs hcc
    refine ⟨?_, ?_, ?_, ?_⟩ <;> rw [← h1, hco]

def c4attrs : List String := ["com.apple.icloud.materialized"]

def c4gx : String → Except PyErr String :=
  fun s => if s == "com.apple.icloud.materialized" then Except.ok ("1")
           else Except.error PyErr.otherOS

/-- Claim C4: the attribute scan decides the downloaded flag from the first
materialized attribute present in the fixed ordered list, and only from
that one: truthy tokens give true, falsy tokens give false, any other
nonempty value gives true, the empty value gives false, and an unreadable
value gives false. -/
theorem c4_materialized_scan (attrs : List String) (gx : String → Except PyErr String)
    (a : String)
    (hfind : materialized_attrs.find? (fun m => attrs.contains m) = some a) :
    (∀ v, gx a = Except.ok v → (v = "1" ∨ v = "true" ∨ v = "True") →
        computeDownloaded attrs gx = true)
    ∧ (∀ v, gx a = Except.ok v → (v = "0" ∨ v = "false" ∨ v = "False") →
        computeDownloaded attrs gx = false)
    ∧ (∀ v, gx a = Except.ok v →
        v ∉ (["1", "true", "True", "0", "false", "False"] : List String) → ¬(v = "") →
        computeDownloaded attrs gx = true)
    ∧ (gx a = Except.ok ("") → computeDownloaded attrs gx = false)
    ∧ (∀ e, gx a = Except.error e → computeDownloaded attrs gx = false)
    ∧ (∀ gx2 : String → Except PyErr String, gx2 a = gx a →
        computeDownloaded attrs gx2 = computeDownloaded attrs gx) := by
  have hcd : computeDownloaded attrs gx = interpretMaterializedValue (gx a) := by
    unfold computeDownloaded
    rw [hfind]
  refine ⟨?_, ?_, ?_, ?_, ?_, ?_⟩
  · intro v hv hcase
    rw [hcd, hv]
    rcases hcase with h | h | h <;> subst h <;> rfl
  · intro v hv hcase
    rw [hcd, hv]
    rcases hcase with h | h | h <;> subst h <;> rfl
  · intro v hv hnot hne
    rw [hcd, hv]
    simp only [List.mem_cons, List.not_mem_nil, or_false, not_or] at hnot
    obtain ⟨h1, h2, h3, h4, h5, h6⟩ := hnot
    simp [interpretMaterializedValue, h1, h2, h3, h4, h5, h6, hne]
  · intro hv
    rw [hcd, hv]
    rfl
  · intro e hv
    rw [hcd, hv]
    rfl
  · intro gx2 hgx
    unfold computeDownloaded
    rw [hfind]
    simp [hgx]

/-- Claim C4 witness: a single present materialized attribute with the
value 1 yields the downloaded flag. -/
theorem c4_witness : computeDownloaded c4attrs c4gx = true :=
  (c4_materialized_scan c4attrs c4gx ("com.apple.icloud.materialized")
    (by decide)).1 ("1") rfl (Or.inl rfl)

def c5fs : FS :=
  { home := "/Users/u"
    listxattr := Except.ok ["com.apple.file-provider.materialized"]
    getsize := Except.ok 5000
    getxattr := fun _ => Except.ok ("0")
    readProbe := fun _ => Except.ok 2048 }

def c5st : FileStatus :=
  { is_icloud_file := true, is_downloaded := true, is_downloading := false,
    is_placeholder := false, file_size := 5000,
    attributes := ["com.apple.file-provider.materialized"] }

/-- Claim C5: for a cloud file larger than 1024 bytes the probe reads
min 2048 size bytes and overrides the flags as follows: zero bytes read
forces placeholder; at least min 1024 size bytes read forces downloaded;
under 1000 bytes read from a file above 10000 bytes forces placeholder; a
read failure on a file above 10000 bytes forces placeholder; in every other
case the attribute-based flags are kept. For a cloud file of at most 1024
bytes the attribute-based flags are returned unchanged. -/
theorem c5_content_probe_override :
    (∀ (path : String) (fs : FS) (attrs : List String) (st : FileStatus),
      fs.listxattr = Except.ok attrs →
      classifyE path fs = Except.ok st →
      st.is_icloud_file = true →
      1024 < st.file_size →
        (fs.readProbe (min 2048 st.file_size) = Except.ok 0 →
            st.is_placeholder = true ∧ st.is_downloaded = false)
        ∧ (∀ n, fs.readProbe (min 2048 st.file_size) = Except.ok n →
            min 1024 st.file_size ≤ n →
            st.is_downloaded = true ∧ st.is_placeholder = false)
        ∧ (∀ n, fs.readProbe (min 2048 st.file_size) = Except.ok n →
            10000 < st.file_size → n < 1000 →
            st.is_placeholder = true ∧ st.is_downloaded = false)
        ∧ (∀ e, fs.readProbe (min 2048 st.file_size) = Except.error e →
            10000 < st.file_size →
            st.is_placeholder = true ∧ st.is_downloaded = false)
        ∧ (∀ n, fs.readProbe (min 2048 st.file_size) = Except.ok n →
            0 < n → n < min 1024 st.file_size → ¬(10000 < st.file_size ∧ n < 1000) →
            (st.is_downloaded, st.is_placeholder) = preProbeFlags attrs fs.getxattr)
        ∧ (∀ e, fs.readProbe (min 2048 st.file_size) = Except.error e →
            st.file_size ≤ 10000 →
            (st.is_downloaded, st.is_placeholder) = preProbeFlags attrs fs.getxattr))
    ∧ (∀ (path : String) (fs : FS) (attrs : List String) (st : FileStatus),
      fs.listxattr = Except.ok attrs →
      classifyE path fs = Except.ok st →
      st.is_icloud_file = true →
      st.file_size ≤ 1024 →
      (st.is_downloaded, st.is_placeholder) = preProbeFlags attrs fs.getxattr) := by
  constructor
  · intro path fs attrs st hl h hcloud hbig
    obtain ⟨hdl, hph, hsz, _⟩ := classify_cloud_eqs path fs attrs st hl h hcloud
    rw [hsz] at hbig
    have hpair : (st.is_downloaded, st.is_placeholder) = finalFlags attrs fs := by
      rw [hdl, hph]
    have hff : finalFlags attrs fs =
        contentProbe (pySize fs.getsize) (preProbeFlags attrs fs.getxattr).1
          (preProbeFlags attrs fs.getxattr).2
          (fs.readProbe (min 2048 (pySize fs.getsize))) := by
      unfold finalFlags
      rw [if_pos hbig]
    refine ⟨?_, ?_, ?_, ?_, ?_, ?_⟩
    · intro hr
      rw [hsz] at hr
      have h2 : (st.is_downloaded, st.is_placeholder) = (false, true) := by
        rw [hpair, hff, hr, contentProbe_ok_zero _ _ _ (by omega)]
      rw [Prod.mk.injEq] at h2
      exact ⟨h2.2, h2.1⟩
    · intro n hr hn
      rw [hsz] at hr hn
      have h2 : (st.is_downloaded, st.is_placeholder) = (true, false) := by
        rw [hpair, hff, hr,
          contentProbe_ok_big _ n _ _ hbig hn (preProbeFlags_snd attrs fs.getxattr)]
      rw [Prod.mk.injEq] at h2
      exact ⟨h2.1, h2.2⟩
    · intro n hr h10 hn
      rw [hsz] at hr h10
      have h2 : (st.is_downloaded, st.is_placeholder) = (false, true) := by
        rw [hpair, hff, hr, contentProbe_ok_short _ n _ _ h10 hn]
      rw [Prod.mk.injEq] at h2
      exact ⟨h2.2, h2.1⟩
    · intro e hr h10
      rw [hsz] at hr h10
      have h2 : (st.is_downloaded, st.is_placeholder) = (false, true) := by
        rw [hpair, hff, hr, contentProbe_err_big _ _ _ _ h10]
      rw [Prod.mk.injEq] at h2
      exact ⟨h2.2, h2.1⟩
    · intro n hr hpos hlt hnf
      rw [hsz] at hr hlt hnf
      rw [hpair, hff, hr, contentProbe_ok_mid _ n _ _ hpos hlt hnf]
    · intro e hr hle
      rw [hsz] at hr hle
      rw [hpair, hff, hr, contentProbe_err_small _ _ _ _ hle]
  · intro path fs attrs st hl h hcloud hle
    obtain ⟨hdl, hph, hsz, _⟩ := classify_cloud_eqs path fs attrs st hl h hcloud
    rw [hsz] at hle
    rw [hdl, hph]
    have hff : finalFlags attrs fs = preProbeFlags attrs fs.getxattr := by
      unfold finalFlags
      rw [if_neg (by omega)]
    rw [hff]

/-- Claim C5 witness: a 5000 byte cloud file whose probe reads 2048 bytes
is forced to downloaded and not placeholder. -/
theorem c5_witness : c5st.is_downloaded = true ∧ c5st.is_placeholder = false :=
  (c5_content_probe_override.1 ("/c") c5fs ["com.apple.file-provider.materialized"]
    c5st rfl rfl rfl (by decide)).2.1 2048 rfl (by decide)

lemma ifChain5 (c1 c2 c3 c4 c5 : Bool) :
    (if c1 then true
     else if c2 then true
     else if c3 then true
     else if c4 then true
     else if c5 then true
     else false) = (c1 || c2 || c3 || c4 || c5) := by
  cases c1 <;> cases c2 <;> cases c3 <;> cases c4 <;> cases c5 <;> rfl

lemma verify_confirmed_some (st : FileStatus) (orig : Option Nat) :
    verify_confirmed (some st) orig =
      (st.is_placeholder || !st.is_downloaded
        || (pyTruthy orig && decide (10 * st.file_size < orig.getD 0))
        || !(materialized_attrs.any (fun a => st.attributes.contains a))
        || (pyTruthy orig && (st.file_size == orig.getD 0)
            && policy_attrs.any (fun a => st.attributes.contains a))) := by
  unfold verify_confirmed
  exact ifChain5 _ _ _ _ _

def c6st : FileStatus :=
  { is_icloud_file := true, is_downloaded := true, is_downloading := false,
    is_placeholder := false, file_size := 0,
    attributes := ["com.apple.file-provider.materialized",
                   "com.apple.file-provider.evicted"] }

def c6fs : FS :=
  { home := "/Users/u"
    listxattr := Except.ok ["com.apple.file-provider.materialized",
                            "com.apple.file-provider.evicted"]
    getsize := Except.ok 0
    getxattr := fun _ => Except.ok ("1")
    readProbe := fun _ => Except.error PyErr.otherOS }

/-- Claim C6 counterexample: with original size 0 the source skips the
size-ratio and size-equality checks because 0 is falsy in Python, so a
re-classified status of size 0 that is still downloaded, still carries a
materialized attribute and carries a policy attribute is not confirmed,
although clause (e) of the claim holds for it. -/
theorem c6_counterexample :
    get_icloud_file_status ("/f") c6fs = some c6st
    ∧ verify_eviction ("/f") c6fs (some 0) = false
    ∧ c6ClaimCondition c6st 0 = true := by
  decide

/-- Claim C6 amended: verify_eviction confirms exactly when the
re-classified status is a placeholder, or is not downloaded, or the
original size is nonzero and the new size is below ten percent of it, or no
materialized attribute name remains, or the original size is nonzero, the
new size equals it and a policy or evicted attribute is present. -/
theorem c6_verify_confirmation_iff (path : String) (fs : FS) (orig : Nat) (st : FileStatus)
    (h : get_icloud_file_status path fs = some st) :
    verify_eviction path fs (some orig) =
      (st.is_placeholder || !st.is_downloaded
        || ((orig != 0) && decide (10 * st.file_size < orig))
        || !(materialized_attrs.any (fun a => st.attributes.contains a))
        || ((orig != 0) && (st.file_size == orig)
            && policy_attrs.any (fun a => st.attributes.contains a))) := by
  unfold verify_eviction
  rw [h, verify_confirmed_some]
  rfl

/-- Claim C6 witness: the amended characterization applied at a concrete
status and a nonzero original size. -/
theorem c6_witness :
    verify_eviction ("/f") c6fs (some 7) =
      (c6st.is_placeholder || !c6st.is_downloaded
        || (((7 : Nat) != 0) && decide (10 * c6st.file_size < 7))
        || !(materialized_attrs.any (fun a => c6st.attributes.contains a))
        || (((7 : Nat) != 0) && (c6st.file_size == 7)
            && policy_attrs.any (fun a => c6st.attributes.contains a))) :=
  c6_verify_confirmation_iff ("/f") c6fs 7 c6st (by decide)

def c7fs : FS :=
  { home := "/Users/u"
    listxattr := Except.error PyErr.notFound
    getsize := Except.error PyErr.notFound
    getxattr := fun _ => Except.error PyErr.notFound
    readProbe := fun _ => Except.error PyErr.notFound }

/-- Claim C7: when the attribute listing raises, the try-block body of the
classifier fails with that same error (NotFound for a missing path, or the
permission and I O errors), and the public function surfaces the failure to
its caller as the absence of a status: it never returns a defaulted status
record. -/
theorem c7_classification_failure (path : String) (fs : FS) :
    (fs.listxattr = Except.error PyErr.notFound →
      classifyE path fs = Except.error PyErr.notFound
      ∧ get_icloud_file_status path fs = none)
    ∧ ∀ e, (e = PyErr.permission ∨ e = PyErr.ioErr) →
      fs.listxattr = Except.error e →
      classifyE path fs = Except.error e ∧ get_icloud_file_status path fs = none := by
  constructor
  · intro h
    have h1 : classifyE path fs = Except.error PyErr.notFound := by
      unfold classifyE
      rw [h]
    refine ⟨h1, ?_⟩
    unfold get_icloud_file_status
    rw [h1]
  · intro e he h
    have h1 : classifyE path fs = Except.error e := by
      unfold classifyE
      rw [h]
    refine ⟨h1, ?_⟩
    unfold get_icloud_file_status
    rw [h1]

/-- Claim C7 witness at a missing path. -/
theorem c7_witness :
    classifyE ("/gone") c7fs = Except.error PyErr.notFound
    ∧ get_icloud_file_status ("/gone") c7fs = none :=
  (c7_classification_failure ("/gone") c7fs).1 rfl

lemma c8am_classify (l : List Event) :
    c8AmendedCheck (Event.classify :: l) = c8AmendedCheck l := rfl

lemma c8am_prevent (l : List Event) :
    c8AmendedCheck (Event.prevent :: l) = c8AmendedCheck l := rfl

lemma c8am_sleep (s : Nat) (l : List Event) :
    c8AmendedCheck (Event.sleep s :: l) = c8AmendedCheck l := rfl

lemma c8am_strat_false (n : String) (l : List Event) :
    c8AmendedCheck (Event.strategy n false :: l) = c8AmendedCheck l := rfl

lemma c8am_strat_true (n : String) (l : List Event) :
    c8AmendedCheck (Event.strategy n true :: Event.prevent :: Event.sleep 2
      :: Event.classify :: l) = c8AmendedCheck l := rfl

lemma stratLoop_cons (env : RunEnv) (initSize k i : Nat) (name : String)
    (rest : List String) :
    stratLoop env initSize k i (name :: rest) =
      if env.stratSuccess i then
        if verify_confirmed (env.classifySeq k) (some initSize) then
          (some i, k + 1,
            [Event.strategy name true, Event.prevent, Event.sleep 2, Event.classify,
             Event.prevent])
        else
          ((stratLoop env initSize (k + 1) (i + 1) rest).1,
           (stratLoop env initSize (k + 1) (i + 1) rest).2.1,
           Event.strategy name true :: Event.prevent :: Event.sleep 2 :: Event.classify
             :: (stratLoop env initSize (k + 1) (i + 1) rest).2.2)
      else
        ((stratLoop env initSize k (i + 1) rest).1,
         (stratLoop env initSize k (i + 1) rest).2.1,
         Event.strategy name false :: (stratLoop env initSize k (i + 1) rest).2.2) := rfl

lemma stratLoop_events_fail (env : RunEnv) (initSize k i : Nat) (name : String)
    (rest : List String) (hsucc : env.stratSuccess i = false) :
    (stratLoop env initSize k i (name :: rest)).2.2 =
      Event.strategy name false :: (stratLoop env initSize k (i + 1) rest).2.2 := by
  rw [stratLoop_cons, hsucc]
  simp

lemma stratLoop_events_unconf (env : RunEnv) (initSize k i : Nat) (name : String)
    (rest : List String) (hsucc : env.stratSuccess i = true)
    (hconf : verify_confirmed (env.classifySeq k) (some initSize) = false) :
    (stratLoop env initSize k i (name :: rest)).2.2 =
      Event.strategy name true :: Event.prevent :: Event.sleep 2 :: Event.classify
        :: (stratLoop env initSize (k + 1) (i + 1) rest).2.2 := by
  rw [stratLoop_cons, hsucc, hconf]
  simp

lemma stratLoop_events_conf (env : RunEnv) (initSize k i : Nat) (name : String)
    (rest : List String) (hsucc : env.stratSuccess i = true)
    (hconf : verify_confirmed (env.classifySeq k) (some initSize) = true) :
    (stratLoop env initSize k i (name :: rest)).2.2 =
      [Event.strategy name true, Event.prevent, Event.sleep 2, Event.classify,
       Event.prevent] := by
  rw [stratLoop_cons, hsucc, hconf]
  simp

lemma stratLoop_c8am (env : RunEnv) (initSize : Nat) :
    ∀ (names : List String) (k i : Nat) (suffix : List Event),
      c8AmendedCheck suffix = true →
      c8AmendedCheck ((stratLoop env initSize k i names).2.2 ++ suffix) = true := by
  intro names
  induction names with
  | nil =>
    intro k i suffix hs
    simpa [stratLoop] using hs
  | cons name rest ih =>
    intro k i suffix hs
    cases hsucc : env.stratSuccess i
    · rw [stratLoop_events_fail env initSize k i name rest hsucc, List.cons_append,
        c8am_strat_false]
      exact ih k (i + 1) suffix hs
    · cases hconf : verify_confirmed (env.classifySeq k) (some initSize)
      · rw [stratLoop_events_unconf env initSize k i name rest hsucc hconf]
        simp only [List.cons_append]
        rw [c8am_strat_true]
        exact ih (k + 1) (i + 1) suffix hs
      · rw [stratLoop_events_conf env initSize k i name rest hsucc hconf]
        simp only [List.cons_append, List.nil_append]
        rw [c8am_strat_true, c8am_prevent]
        exact hs

lemma c8am_nostrat (l : List Event) (h : ∀ e ∈ l, isStrategyEvent e = false) :
    c8AmendedCheck l = true := by
  induction l with
  | nil => rfl
  | cons e rest ih =>
    have he := h e (List.mem_cons_self e rest)
    have hr : ∀ x ∈ rest, isStrategyEvent x = false :=
      fun x hx => h x (List.mem_cons_of_mem e hx)
    cases e with
    | classify =>
      rw [c8am_classify]
      exact ih hr
    | prevent =>
      rw [c8am_prevent]
      exact ih hr
    | sleep s =>
      rw [c8am_sleep]
      exact ih hr
    | strategy n b => simp [isStrategyEvent] at he

lemma rdsPost_nostrat (env : RunEnv) (initSize k : Nat) :
    ∀ e ∈ (rdsPost env initSize k).2.2, isStrategyEvent e = false := by
  intro e he
  unfold rdsPost at he
  split at he
  · simp only [List.mem_cons, List.not_mem_nil, or_false] at he
    rcases he with rfl | rfl | rfl <;> rfl
  · split at he
    · split at he
      · simp only [List.mem_cons, List.not_mem_nil, or_false] at he
        rcases he with rfl | rfl | rfl | rfl | rfl <;> rfl
      · simp only [List.mem_cons, List.not_mem_nil, or_false] at he
        rcases he with rfl | rfl | rfl | rfl | rfl <;> rfl
    · simp only [List.mem_cons, List.not_mem_nil, or_false] at he
      rcases he with rfl | rfl | rfl | rfl | rfl <;> rfl

lemma rdsMain_c8am (env : RunEnv) (st : FileStatus) :
    c8AmendedCheck ((rdsMain env st).2.2) = true := by
  unfold rdsMain
  cases hr : (stratLoop env st.file_size 1 0 methodNames).1 with
  | some i =>
    change c8AmendedCheck
      (Event.classify :: (stratLoop env st.file_size 1 0 methodNames).2.2) = true
    rw [c8am_classify]
    have h := stratLoop_c8am env st.file_size methodNames 1 0 [] rfl
    rwa [List.append_nil] at h
  | none =>
    change c8AmendedCheck
      (Event.classify :: (stratLoop env st.file_size 1 0 methodNames).2.2
        ++ (rdsPost env st.file_size
              (stratLoop env st.file_size 1 0 methodNames).2.1).2.2) = true
    rw [List.cons_append, c8am_classify]
    exact stratLoop_c8am env st.file_size methodNames 1 0 _
      (c8am_nostrat _ (rdsPost_nostrat env st.file_size _))

def c8env : RunEnv :=
  { pathExists := true
    classifySeq := fun k =>
      if k = 0 then
        some { is_icloud_file := true, is_downloaded := true, is_downloading := false,
               is_placeholder := false, file_size := 200000,
               attributes := ["com.apple.file-provider.materialized"] }
      else none
    stratSuccess := fun _ => false }

/-- Claim C8 counterexample: on a run in which every strategy reports
failure, the four strategy invocations appear back to back in the trace
with no policy write and no verification between them, so the claim as
stated, that policy writes and verification follow every strategy
invocation regardless of its success flag, fails on this concrete run. -/
theorem c8_counterexample :
    c8AsStatedCheck ((remove_download_smart c8env).2.2) = false := by
  decide

/-- Claim C8 amended: on every run, each strategy invocation whose own
success flag is true is immediately followed by the anti-redownload policy
writes and then a verification before anything else happens; after a
strategy invocation whose flag is false the orchestrator moves directly on. -/
theorem c8_policy_and_verify_after_reported_success (env : RunEnv) :
    c8AmendedCheck ((remove_download_smart env).2.2) = true := by
  unfold remove_download_smart
  cases hpe : env.pathExists
  · rfl
  · cases hc0 : env.classifySeq 0 with
    | none => rfl
    | some st =>
      change c8AmendedCheck
        ((if !st.is_icloud_file then (false, Outcome.notCloud, [Event.classify])
          else if !st.is_downloaded then (true, Outcome.alreadyEvicted, [Event.classify])
          else rdsMain env st).2.2) = true
      cases hic : st.is_icloud_file
      · rfl
      · cases hdl : st.is_downloaded
        · rfl
        · exact rdsMain_c8am env st

def c9st : FileStatus :=
  { is_icloud_file := true, is_downloaded := false, is_downloading := false,
    is_placeholder := true, file_size := 123,
    attributes := ["com.apple.icloud.placeholder"] }

def c9env : RunEnv :=
  { pathExists := true
    classifySeq := fun k => if k = 0 then some c9st else none
    stratSuccess := fun _ => true }

/-- Claim C9: an existing cloud file whose classification reports not
downloaded makes remove_download_smart return success with the
already-evicted outcome at once; the whole trace is the single initial
classification, so no strategy is invoked, no verification and hence no
settle or recheck sleep happens, and no policy write or other mutation of
the file occurs. -/
theorem c9_already_evicted_short_circuit (env : RunEnv) (st : FileStatus)
    (hpe : env.pathExists = true)
    (hc0 : env.classifySeq 0 = some st)
    (hic : st.is_icloud_file = true)
    (hdl : st.is_downloaded = false) :
    remove_download_smart env = (true, Outcome.alreadyEvicted, [Event.classify]) := by
  unfold remove_download_smart
  rw [hpe, hc0]
  simp [hic, hdl]

/-- Claim C9 witness at a concrete placeholder cloud file. -/
theorem c9_witness :
    remove_download_smart c9env = (true, Outcome.alreadyEvicted, [Event.classify]) :=
  c9_already_evicted_short_circuit c9env c9st rfl rfl rfl rfl

/-- Claim C10: is_icloud_file_evicted holds exactly when either the path is
missing and the sidecar dot-name icloud file exists in the same directory,
or the path exists and its reported size is exactly zero. -/
theorem c10_evicted_iff (fs : MainFS) (p : String) :
    is_icloud_file_evicted fs p = true ↔
      (fs.pathExists p = false
        ∧ fs.pathExists (joinPath (dirname p) ("." ++ basename p ++ ".icloud")) = true)
      ∨ (fs.pathExists p = true ∧ fs.st_size p = 0) := by
  unfold is_icloud_file_evicted
  cases hpe : fs.pathExists p
  · simp [hpe]
  · simp [hpe]
